import Mathlib

/-!
Verification of the UIPI control subsystem of rCore-N.

This file gives a shallow embedding of the UIPI endpoint-management code of
the repository (`os/src/trap/uipi/defs.rs`, `os/src/trap/uipi/uintc_mat.rs`,
`os/src/syscall/uipi.rs`) and proves properties of it.

Modelling conventions:
* Machine integers (`u16`, `u32`, `usize`) are modelled as `Nat`; a `% 2 ^ 32`
  reduction is applied wherever the source stores a `u32` (MMIO writes) or
  performs an `as u32` / `as u16` cast (allocator initialisation).  The
  `NonZeroU32` / `NonZeroU16` newtypes are modelled as `Nat` together with the
  explicit zero tests performed by the source's `try_into` conversions.
* The UINTC MMIO region is a function `Nat → Nat` from byte addresses to the
  32-bit word last stored at exactly that address, plus an ordered event log
  recording every volatile write and every id-pool return, so that ordering
  claims can be stated.
* Global state (the four id pools, the MMIO state, the calling task's trap
  info) is threaded explicitly through every operation as a `KState`.
* `crate::config` is not among the provided sources, so `UINTC_BASE`,
  `UINTC_MAX_SENDER` and `UINTC_MAX_RECEIVER` are parameters (a `Config`).
* External collaborators (`memory_set.mmio_map` / `mmio_unmap`,
  `translated_byte_buffer`) are abstracted by boolean success oracles, exactly
  as the syscall code only branches on their success.
-/

namespace RCoreN

/-! ## Constants from `os/src/trap/uipi/uintc_mat.rs` -/

def SENDER_BASE : Nat := 0x0
def SENDER_STRIDE : Nat := 0x2000
def SENDER_ID_OFFSET : Nat := 0x1000
def SENDER_ENABLE_OFFSET : Nat := 0x1800
def SENDER_PENDING_OFFSET : Nat := 0x1A00
def RECEIVER_BASE : Nat := 0x2000000
def RECEIVER_STRIDE : Nat := 0x2000
def RECEIVER_ID_OFFSET : Nat := 0x1000
def RECEIVER_ENABLE_OFFSET : Nat := 0x1800
def RECEIVER_PENDING_OFFSET : Nat := 0x1A00
def CONTEXT_BASE : Nat := 0x0
def CONTEXT_STRIDE : Nat := 0x4

/-- All-ones mask of a `u32`, used to model the Rust `!` (bitwise not) on
`u32` values. -/
def U32_MASK : Nat := 2 ^ 32 - 1

/-- Modelled from the spec: the constants of `crate::config` consumed by the
UIPI subsystem (`UINTC_BASE`, `UINTC_MAX_SENDER`, `UINTC_MAX_RECEIVER`); the
`config` module is not among the provided sources, so their numeric values are
kept abstract. -/
structure Config where
  UINTC_BASE : Nat
  UINTC_MAX_SENDER : Nat
  UINTC_MAX_RECEIVER : Nat
deriving DecidableEq

/-! ## `StackIntegerAllocator` from `os/src/trap/uipi/defs.rs`

The `recycled` field models the source's `Vec<I>`; the head of the Lean list
is the top of the stack (the end of the `Vec`, where `push` appends and `pop`
removes). -/

structure StackIntegerAllocator where
  current : Nat
  end_ : Nat
  recycled : List Nat
deriving DecidableEq

def StackIntegerAllocator.new (l r : Nat) : StackIntegerAllocator :=
  { current := l, end_ := r, recycled := [] }

def StackIntegerAllocator.alloc (s : StackIntegerAllocator) :
    Option Nat × StackIntegerAllocator :=
  match s.recycled with
  | t :: rest => (some t, { s with recycled := rest })
  | [] =>
    if s.current = s.end_ then (none, s)
    else (some s.current, { s with current := s.current + 1 })

def StackIntegerAllocator.dealloc (s : StackIntegerAllocator) (i : Nat) :
    StackIntegerAllocator :=
  { s with recycled := i :: s.recycled }

/-- The debug-mode validity check of `StackIntegerAllocator::dealloc`
(`i >= self.current || self.recycled.contains(i)` panics). -/
def StackIntegerAllocator.deallocOk (s : StackIntegerAllocator) (i : Nat) : Prop :=
  i < s.current ∧ i ∉ s.recycled

/-! ## Claim C10: dealloc immediately followed by alloc -/

/-- C10: for every id pool, an `alloc()` performed immediately after
`dealloc(v)`, with no intervening operations on that pool, returns exactly
`v` and restores the pool to its state before the `dealloc`: the recycled set
is a LIFO stack and `alloc` pops its most recently pushed element. -/
theorem alloc_after_dealloc (s : StackIntegerAllocator) (v : Nat) :
    (s.dealloc v).alloc = (some v, s) := rfl

/-! ## Claim C6: no duplicate live values, no duplicate recycled values

An operation trace on one pool.  `runPool` executes a trace, tracking the
list `live` of values returned by `alloc` and not yet passed back to
`dealloc`; it returns `none` if some `dealloc` violates the precondition of
the claim (its argument is not currently live). -/

inductive PoolOp where
  | alloc : PoolOp
  | dealloc (v : Nat) : PoolOp
deriving DecidableEq

def runPool : List PoolOp → StackIntegerAllocator → List Nat →
    Option (StackIntegerAllocator × List Nat)
  | [], s, live => some (s, live)
  | PoolOp.alloc :: ops, s, live =>
    match s.alloc with
    | (some v, s1) => runPool ops s1 (v :: live)
    | (none, s1) => runPool ops s1 live
  | PoolOp.dealloc v :: ops, s, live =>
    if v ∈ live then runPool ops (s.dealloc v) (live.erase v) else none

/-- The inductive invariant of a pool: live values are pairwise distinct, the
recycled stack has no duplicates, live and recycled are disjoint, and both are
below the watermark `current`. -/
def PoolInv (s : StackIntegerAllocator) (live : List Nat) : Prop :=
  live.Nodup ∧ s.recycled.Nodup ∧
  (∀ v ∈ live, v ∉ s.recycled) ∧
  (∀ v ∈ live, v < s.current) ∧
  (∀ v ∈ s.recycled, v < s.current)

lemma poolInv_alloc_some (s s1 : StackIntegerAllocator) (live : List Nat) (v : Nat)
    (h : PoolInv s live) (halloc : s.alloc = (some v, s1)) :
    PoolInv s1 (v :: live) := by
  obtain ⟨cur, endv, rec⟩ := s
  obtain ⟨hlive, hrec, hdisj, hliveb, hrecb⟩ := h
  simp only [PoolInv] at hlive hrec hdisj hliveb hrecb ⊢
  cases rec with
  | cons t rest =>
    simp only [StackIntegerAllocator.alloc, Prod.mk.injEq, Option.some.injEq] at halloc
    obtain ⟨rfl, rfl⟩ := halloc
    simp only [List.nodup_cons] at hrec ⊢
    refine ⟨⟨fun hm => (hdisj t hm) (by simp), hlive⟩, hrec.2, ?_, ?_, ?_⟩
    · intro u hu
      rcases List.mem_cons.mp hu with h1 | h1
      · subst h1; exact hrec.1
      · intro hu2; exact hdisj u h1 (List.mem_cons_of_mem _ hu2)
    · intro u hu
      rcases List.mem_cons.mp hu with h1 | h1
      · subst h1; exact hrecb u (by simp)
      · exact hliveb u h1
    · intro u hu; exact hrecb u (List.mem_cons_of_mem _ hu)
  | nil =>
    simp only [StackIntegerAllocator.alloc] at halloc
    by_cases hce : cur = endv
    · rw [if_pos hce] at halloc; simp at halloc
    · rw [if_neg hce] at halloc
      simp only [Prod.mk.injEq, Option.some.injEq] at halloc
      obtain ⟨rfl, rfl⟩ := halloc
      refine ⟨?_, hrec, ?_, ?_, ?_⟩
      · exact List.nodup_cons.mpr ⟨fun hm => lt_irrefl _ (hliveb _ hm), hlive⟩
      · intro u hu
        rcases List.mem_cons.mp hu with h1 | h1
        · subst h1; simp
        · intro hu2; exact hdisj u h1 hu2
      · intro u hu
        rcases List.mem_cons.mp hu with h1 | h1
        · subst h1; simp
        · exact Nat.lt_succ_of_lt (hliveb u h1)
      · intro u hu; simp at hu

lemma poolInv_alloc_none (s s1 : StackIntegerAllocator) (live : List Nat)
    (h : PoolInv s live) (halloc : s.alloc = (none, s1)) :
    PoolInv s1 live := by
  obtain ⟨cur, endv, rec⟩ := s
  cases rec with
  | cons t rest => simp [StackIntegerAllocator.alloc] at halloc
  | nil =>
    simp only [StackIntegerAllocator.alloc] at halloc
    by_cases hce : cur = endv
    · rw [if_pos hce] at halloc
      simp only [Prod.mk.injEq] at halloc
      rw [← halloc.2]
      exact h
    · rw [if_neg hce] at halloc; simp at halloc

lemma poolInv_dealloc (s : StackIntegerAllocator) (live : List Nat) (v : Nat)
    (h : PoolInv s live) (hv : v ∈ live) :
    PoolInv (s.dealloc v) (live.erase v) := by
  obtain ⟨hlive, hrec, hdisj, hliveb, hrecb⟩ := h
  refine ⟨hlive.erase v, ?_, ?_, ?_, ?_⟩
  · exact List.nodup_cons.mpr ⟨fun hm => hdisj v hv hm, hrec⟩
  · intro u hu
    have hu2 := (List.Nodup.mem_erase_iff hlive).mp hu
    intro hmem
    rcases List.mem_cons.mp hmem with h1 | h1
    · exact hu2.1 h1
    · exact hdisj u hu2.2 h1
  · intro u hu
    exact hliveb u ((List.Nodup.mem_erase_iff hlive).mp hu).2
  · intro u hu
    rcases List.mem_cons.mp hu with h1 | h1
    · rw [h1]; exact hliveb v hv
    · exact hrecb u h1

lemma runPool_inv : ∀ (ops : List PoolOp) (s : StackIntegerAllocator)
    (live : List Nat) (s1 : StackIntegerAllocator) (live1 : List Nat),
    PoolInv s live → runPool ops s live = some (s1, live1) → PoolInv s1 live1 := by
  intro ops
  induction ops with
  | nil =>
    intro s live s1 live1 hinv hrun
    unfold runPool at hrun
    cases hrun
    exact hinv
  | cons op rest ih =>
    intro s live s1 live1 hinv hrun
    cases op with
    | alloc =>
      unfold runPool at hrun
      rcases halloc : s.alloc with ⟨o, s2⟩
      cases o with
      | some v =>
        rw [halloc] at hrun
        exact ih s2 (v :: live) s1 live1 (poolInv_alloc_some s s2 live v hinv halloc) hrun
      | none =>
        rw [halloc] at hrun
        exact ih s2 live s1 live1 (poolInv_alloc_none s s2 live hinv halloc) hrun
    | dealloc v =>
      unfold runPool at hrun
      by_cases hv : v ∈ live
      · rw [if_pos hv] at hrun
        exact ih _ _ s1 live1 (poolInv_dealloc s live v hinv hv) hrun
      · rw [if_neg hv] at hrun; cases hrun

/-- C6: for every id pool, under the precondition that every `dealloc` call
passes a value that was previously returned by `alloc` and is currently live
(`runPool` returns `none` otherwise), any two simultaneously live allocated
values are distinct and the recycled list never contains duplicates, at every
point of every operation sequence starting from a fresh pool. -/
theorem pool_live_and_recycled_nodup (ops : List PoolOp) (l r : Nat)
    (s : StackIntegerAllocator) (live : List Nat)
    (h : runPool ops (StackIntegerAllocator.new l r) [] = some (s, live)) :
    live.Nodup ∧ s.recycled.Nodup := by
  have hinv : PoolInv (StackIntegerAllocator.new l r) [] := by
    refine ⟨List.nodup_nil, List.nodup_nil, ?_, ?_, ?_⟩ <;> simp [StackIntegerAllocator.new]
  have h2 := runPool_inv ops _ _ s live hinv h
  exact ⟨h2.1, h2.2.1⟩

/-- Witness for C6: the trace alloc, alloc, dealloc 1, alloc on a fresh pool
over `[1, 5)` runs without violating the precondition and ends with live
values `[1, 2]` and an empty recycled stack, both duplicate-free. -/
theorem pool_live_and_recycled_nodup_witness :
    runPool [PoolOp.alloc, PoolOp.alloc, PoolOp.dealloc 1, PoolOp.alloc]
      (StackIntegerAllocator.new 1 5) [] = some (⟨3, 5, []⟩, [1, 2]) ∧
    ([1, 2] : List Nat).Nodup ∧ (⟨3, 5, []⟩ : StackIntegerAllocator).recycled.Nodup := by
  refine ⟨by decide, ?_⟩
  exact pool_live_and_recycled_nodup
    [PoolOp.alloc, PoolOp.alloc, PoolOp.dealloc 1, PoolOp.alloc] 1 5 ⟨3, 5, []⟩ [1, 2]
    (by decide)

/-! ## Kernel state

Everything the UIPI control plane mutates: the four global id pools of
`defs.rs`, the UINTC MMIO region of `uintc_mat.rs`, and the calling task's
`UserTrapInfo` slot.  An ordered event log records volatile MMIO writes and
id-pool returns, so that the ordering guarantees of handle destruction can be
stated. -/

inductive PoolKind where
  | senderId | senderUintcId | receiverId | receiverUintcId
deriving DecidableEq

inductive Event where
  | mmioWrite (addr val : Nat)
  | poolReturn (k : PoolKind) (v : Nat)
deriving DecidableEq

/-- `SenderInfo` of `defs.rs`: the logical `SenderId` paired with the hardware
`SenderUintcId` (both non-zero machine integers, modelled as `Nat`). -/
structure SenderInfo where
  id : Nat
  uintc_id : Nat
deriving DecidableEq

/-- `ReceiverInfo` of `defs.rs`. -/
structure ReceiverInfo where
  id : Nat
  uintc_id : Nat
deriving DecidableEq

/-- Modelled from the spec: the UIPI-owned slice of the per-process trap-info
record (the `UserTrapInfo` struct itself is declared outside the provided
sources; its three UIPI fields are fixed by §3 of the spec and by every use in
`os/src/syscall/uipi.rs`).  The two registries are association lists from the
numeric logical id to the handle's info; keys are kept unique by the
`insert`/`remove` discipline of the syscall code. -/
structure UserTrapInfo where
  uipi_senders : List (Nat × SenderInfo)
  uipi_receivers : List (Nat × ReceiverInfo)
  listening_receiver_uintc_id : Option Nat
deriving DecidableEq

structure KState where
  senderIdPool : StackIntegerAllocator
  senderUintcIdPool : StackIntegerAllocator
  receiverIdPool : StackIntegerAllocator
  receiverUintcIdPool : StackIntegerAllocator
  mem : Nat → Nat
  trapInfo : Option UserTrapInfo
  log : List Event

/-- A volatile 32-bit MMIO store: the stored word is reduced mod `2 ^ 32` and
the write is appended to the event log. -/
def writeVolatile (st : KState) (addr val : Nat) : KState :=
  { st with
    mem := fun a => if a = addr then val % 2 ^ 32 else st.mem a,
    log := st.log ++ [Event.mmioWrite addr (val % 2 ^ 32)] }

@[simp] lemma writeVolatile_senderIdPool (st : KState) (a v : Nat) :
    (writeVolatile st a v).senderIdPool = st.senderIdPool := rfl
@[simp] lemma writeVolatile_senderUintcIdPool (st : KState) (a v : Nat) :
    (writeVolatile st a v).senderUintcIdPool = st.senderUintcIdPool := rfl
@[simp] lemma writeVolatile_receiverIdPool (st : KState) (a v : Nat) :
    (writeVolatile st a v).receiverIdPool = st.receiverIdPool := rfl
@[simp] lemma writeVolatile_receiverUintcIdPool (st : KState) (a v : Nat) :
    (writeVolatile st a v).receiverUintcIdPool = st.receiverUintcIdPool := rfl
@[simp] lemma writeVolatile_trapInfo (st : KState) (a v : Nat) :
    (writeVolatile st a v).trapInfo = st.trapInfo := rfl
@[simp] lemma writeVolatile_log (st : KState) (a v : Nat) :
    (writeVolatile st a v).log = st.log ++ [Event.mmioWrite a (v % 2 ^ 32)] := rfl
lemma writeVolatile_mem_ne (st : KState) (a v x : Nat) (h : x ≠ a) :
    (writeVolatile st a v).mem x = st.mem x := by
  simp [writeVolatile, h]
@[simp] lemma writeVolatile_mem_self (st : KState) (a v : Nat) :
    (writeVolatile st a v).mem a = v % 2 ^ 32 := by
  simp [writeVolatile]

/-! ## The matrix driver, `os/src/trap/uipi/uintc_mat.rs`

The `UINTC_MAT_LOCK` mutex merely serialises the operations below; in this
sequential embedding each operation is a single atomic state transformer. -/

def sender_addr_start (cfg : Config) (sender_uintc_id : Nat) : Nat :=
  cfg.UINTC_BASE + SENDER_BASE + SENDER_STRIDE * sender_uintc_id

def receiver_addr_start (cfg : Config) (receiver_uintc_id : Nat) : Nat :=
  cfg.UINTC_BASE + RECEIVER_BASE + RECEIVER_STRIDE * receiver_uintc_id

/-- `set_sender_id`: writes `id or 0` at `sender_addr_start(slot) + 0x1000`. -/
def set_sender_id (cfg : Config) (sender_uintc_id : Nat) (sender_id : Option Nat)
    (st : KState) : KState :=
  writeVolatile st (sender_addr_start cfg sender_uintc_id + SENDER_ID_OFFSET)
    (sender_id.getD 0)

/-- `set_receiver_id`: symmetric at the receiver zone. -/
def set_receiver_id (cfg : Config) (receiver_uintc_id : Nat)
    (receiver_id : Option Nat) (st : KState) : KState :=
  writeVolatile st (receiver_addr_start cfg receiver_uintc_id + RECEIVER_ID_OFFSET)
    (receiver_id.getD 0)

/-- `set_listening_receiver_id`: writes `receiver_uintc_id or 0` into the
hart-context word at `UINTC_BASE + CONTEXT_BASE + 4 * context_id`. -/
def set_listening_receiver_id (cfg : Config) (context_id : Nat)
    (receiver_uintc_id : Option Nat) (st : KState) : KState :=
  writeVolatile st (cfg.UINTC_BASE + CONTEXT_BASE + CONTEXT_STRIDE * context_id)
    (receiver_uintc_id.getD 0)

/-- `set_connected`: read-modify-write of one enable-bitmap word.  The address
computation reproduces the source verbatim, including the fact that
`word_index` is added unscaled (not multiplied by 4). -/
def set_connected (cfg : Config) (sender_uintc_id receiver_uintc_id : Nat)
    (connect : Bool) (st : KState) : KState :=
  let word_index := receiver_uintc_id / 32
  let bit : Nat := 1 <<< (receiver_uintc_id % 32)
  let addr := sender_addr_start cfg sender_uintc_id + SENDER_ENABLE_OFFSET + word_index
  let word := st.mem addr
  writeVolatile st addr (if connect then word ||| bit else word &&& (U32_MASK ^^^ bit))

/-- The zeroing loops of `drop_sender` / `drop_receiver`:
`for i in 0..words { write_volatile(addr + i * 4, 0) }`. -/
def zeroWords (addr words : Nat) (st : KState) : KState :=
  (List.range words).foldl (fun s i => writeVolatile s (addr + i * 4) 0) st

/-- `drop_sender`: zero all `ceil(UINTC_MAX_RECEIVER / 32)` words of the
slot's enable bitmap, then of its pending bitmap, then clear the bound id. -/
def drop_sender (cfg : Config) (sender_uintc_id : Nat) (st : KState) : KState :=
  let sender_start := sender_addr_start cfg sender_uintc_id
  let words := (cfg.UINTC_MAX_RECEIVER + 31) / 32
  let st1 := zeroWords (sender_start + SENDER_ENABLE_OFFSET) words st
  let st2 := zeroWords (sender_start + SENDER_PENDING_OFFSET) words st1
  set_sender_id cfg sender_uintc_id none st2

/-- `drop_receiver`: symmetric over the receiver slot (the word count is also
driven by `UINTC_MAX_RECEIVER`, as in the source). -/
def drop_receiver (cfg : Config) (receiver_uintc_id : Nat) (st : KState) : KState :=
  let receiver_start := receiver_addr_start cfg receiver_uintc_id
  let words := (cfg.UINTC_MAX_RECEIVER + 31) / 32
  let st1 := zeroWords (receiver_start + RECEIVER_ENABLE_OFFSET) words st
  let st2 := zeroWords (receiver_start + RECEIVER_PENDING_OFFSET) words st1
  set_receiver_id cfg receiver_uintc_id none st2

/-! ## Id wrappers and endpoint handles, `os/src/trap/uipi/defs.rs` -/

/-- The trap-info record of a task that has just initialised user-trap
handling: empty registries, no listening receiver. -/
def utiEmpty : UserTrapInfo :=
  { uipi_senders := [], uipi_receivers := [], listening_receiver_uintc_id := none }

/-- The freshly initialised system state: the four lazily initialised global
pools of `defs.rs`, each ranging over `[1, bound)` after the `as u32` /
`as u16` cast of the bound, zeroed MMIO state, and an empty trap-info record
for the calling task. -/
def freshKState (cfg : Config) : KState :=
  { senderIdPool := StackIntegerAllocator.new 1 (cfg.UINTC_MAX_SENDER % 2 ^ 32),
    senderUintcIdPool := StackIntegerAllocator.new 1 (cfg.UINTC_MAX_SENDER % 2 ^ 16),
    receiverIdPool := StackIntegerAllocator.new 1 (cfg.UINTC_MAX_RECEIVER % 2 ^ 32),
    receiverUintcIdPool := StackIntegerAllocator.new 1 (cfg.UINTC_MAX_RECEIVER % 2 ^ 16),
    mem := fun _ => 0,
    trapInfo := some utiEmpty,
    log := [] }

/-- `SenderId::alloc`: pool alloc followed by the `NonZeroU32` conversion
(which fails on zero, after the pool state has already advanced). -/
def SenderId.alloc (st : KState) : Option Nat × KState :=
  match st.senderIdPool.alloc with
  | (none, p) => (none, { st with senderIdPool := p })
  | (some v, p) =>
    let st1 := { st with senderIdPool := p }
    if v = 0 then (none, st1) else (some v, st1)

def SenderId.dealloc (v : Nat) (st : KState) : KState :=
  { st with senderIdPool := st.senderIdPool.dealloc v,
            log := st.log ++ [Event.poolReturn PoolKind.senderId v] }

def SenderUintcId.alloc (st : KState) : Option Nat × KState :=
  match st.senderUintcIdPool.alloc with
  | (none, p) => (none, { st with senderUintcIdPool := p })
  | (some v, p) =>
    let st1 := { st with senderUintcIdPool := p }
    if v = 0 then (none, st1) else (some v, st1)

def SenderUintcId.dealloc (v : Nat) (st : KState) : KState :=
  { st with senderUintcIdPool := st.senderUintcIdPool.dealloc v,
            log := st.log ++ [Event.poolReturn PoolKind.senderUintcId v] }

def ReceiverId.alloc (st : KState) : Option Nat × KState :=
  match st.receiverIdPool.alloc with
  | (none, p) => (none, { st with receiverIdPool := p })
  | (some v, p) =>
    let st1 := { st with receiverIdPool := p }
    if v = 0 then (none, st1) else (some v, st1)

def ReceiverId.dealloc (v : Nat) (st : KState) : KState :=
  { st with receiverIdPool := st.receiverIdPool.dealloc v,
            log := st.log ++ [Event.poolReturn PoolKind.receiverId v] }

def ReceiverUintcId.alloc (st : KState) : Option Nat × KState :=
  match st.receiverUintcIdPool.alloc with
  | (none, p) => (none, { st with receiverUintcIdPool := p })
  | (some v, p) =>
    let st1 := { st with receiverUintcIdPool := p }
    if v = 0 then (none, st1) else (some v, st1)

def ReceiverUintcId.dealloc (v : Nat) (st : KState) : KState :=
  { st with receiverUintcIdPool := st.receiverUintcIdPool.dealloc v,
            log := st.log ++ [Event.poolReturn PoolKind.receiverUintcId v] }

/-- `SenderHandle::new`: allocate the logical id, then the hardware index
(each `?` propagates failure with the state reached so far), then bind the id
into the hardware slot. -/
def SenderHandle.new (cfg : Config) (st : KState) : Option SenderInfo × KState :=
  match SenderId.alloc st with
  | (none, st1) => (none, st1)
  | (some id, st1) =>
    match SenderUintcId.alloc st1 with
    | (none, st2) => (none, st2)
    | (some uintc_id, st2) =>
      (some { id := id, uintc_id := uintc_id }, set_sender_id cfg uintc_id (some id) st2)

/-- `impl Drop for SenderHandle`: `drop_sender`, then return the logical id,
then the hardware index, to their pools. -/
def SenderHandle.drop (cfg : Config) (info : SenderInfo) (st : KState) : KState :=
  SenderUintcId.dealloc info.uintc_id
    (SenderId.dealloc info.id (drop_sender cfg info.uintc_id st))

/-- `ReceiverHandle::new`. -/
def ReceiverHandle.new (cfg : Config) (st : KState) : Option ReceiverInfo × KState :=
  match ReceiverId.alloc st with
  | (none, st1) => (none, st1)
  | (some id, st1) =>
    match ReceiverUintcId.alloc st1 with
    | (none, st2) => (none, st2)
    | (some uintc_id, st2) =>
      (some { id := id, uintc_id := uintc_id },
        set_receiver_id cfg uintc_id (some id) st2)

/-- `impl Drop for ReceiverHandle`. -/
def ReceiverHandle.drop (cfg : Config) (info : ReceiverInfo) (st : KState) : KState :=
  ReceiverUintcId.dealloc info.uintc_id
    (ReceiverId.dealloc info.id (drop_receiver cfg info.uintc_id st))

/-! ## The syscall layer, `os/src/syscall/uipi.rs`

Flag decoding follows `bitflags`: `from_bits` fails iff a bit outside the
declared set is present, i.e. iff `flags &&& mask ≠ flags`.  The result type
distinguishes `Ok`, `Err` and the kernel panics raised on registry
inconsistency. -/

def SENDER_FLAG_MASK : Nat := 7
def RECEIVER_FLAG_MASK : Nat := 31
def FLAG_CREATE : Nat := 1
def FLAG_RELEASE : Nat := 2
def FLAG_GET_INFO : Nat := 4
def FLAG_LISTEN : Nat := 8
def FLAG_UNLISTEN : Nat := 16

inductive CtlResult where
  | ok (v : Nat)
  | err (e : Int)
  | panicked
deriving DecidableEq

/-- `find_sender_info`: `usize → u32 → NonZeroU32` conversions, then a lookup
in the caller's `uipi_senders` registry. -/
def find_sender_info (uti : UserTrapInfo) (sender_id : Nat) : Except Int SenderInfo :=
  if sender_id < 2 ^ 32 then
    if sender_id = 0 then Except.error (-1)
    else
      match uti.uipi_senders.lookup sender_id with
      | some info => Except.ok info
      | none => Except.error (-1)
  else Except.error (-1)

/-- `find_receiver_info`. -/
def find_receiver_info (uti : UserTrapInfo) (receiver_id : Nat) :
    Except Int ReceiverInfo :=
  if receiver_id < 2 ^ 32 then
    if receiver_id = 0 then Except.error (-1)
    else
      match uti.uipi_receivers.lookup receiver_id with
      | some info => Except.ok info
      | none => Except.error (-1)
  else Except.error (-1)

/-- `uipi_sender_ctl_impl`.  `mmapOk` abstracts the success of
`memory_set.mmio_map` (CREATE), `translateOk` that of
`translated_byte_buffer` (GET_INFO); `mmio_unmap` failure on RELEASE only
produces a warning, so its oracle is not even consulted. -/
def uipi_sender_ctl_impl (cfg : Config) (mmapOk translateOk : Bool)
    (flags sender_id : Nat) (st : KState) : CtlResult × KState :=
  if flags &&& SENDER_FLAG_MASK ≠ flags then (CtlResult.err (-1), st) else
  match st.trapInfo with
  | none => (CtlResult.err (-1), st)
  | some uti =>
    match
      (if flags &&& FLAG_CREATE ≠ 0 then
        match SenderHandle.new cfg st with
        | (none, st1) => Except.error (CtlResult.err (-1), st1)
        | (some info, st1) =>
          if mmapOk then
            if (uti.uipi_senders.lookup info.id).isSome then
              Except.error (CtlResult.panicked, st1)
            else
              let uti1 := { uti with uipi_senders := (info.id, info) :: uti.uipi_senders }
              Except.ok (info, { st1 with trapInfo := some uti1 })
          else
            Except.error (CtlResult.err (-1), SenderHandle.drop cfg info st1)
      else
        match find_sender_info uti sender_id with
        | Except.ok info => Except.ok (info, st)
        | Except.error e => Except.error (CtlResult.err e, st)) with
    | Except.error r => r
    | Except.ok (sender_info, st2) =>
      if flags &&& FLAG_GET_INFO ≠ 0 ∧ translateOk = false then (CtlResult.err (-1), st2)
      else
        -- on success GET_INFO copies `sender_info` into the user buffer,
        -- which is outside the kernel state modelled here
        if flags &&& FLAG_RELEASE ≠ 0 then
          match st2.trapInfo with
          | some uti2 =>
            -- `mmio_unmap` failure is only a warning
            if (uti2.uipi_senders.lookup sender_info.id).isNone then
              (CtlResult.panicked, st2)
            else
              let uti3 := { uti2 with uipi_senders :=
                uti2.uipi_senders.filter (fun p => p.1 ≠ sender_info.id) }
              let st3 := { st2 with trapInfo := some uti3 }
              (CtlResult.ok sender_info.id, SenderHandle.drop cfg sender_info st3)
          | none => (CtlResult.panicked, st2)
        else (CtlResult.ok sender_info.id, st2)

/-- The `unlisten` helper nested in `uipi_receiver_ctl_impl`: reset the
task's `listening_receiver_uintc_id`, then clear the calling hart's listening
register; the returned value is the id passed in, or 0. -/
def unlisten (cfg : Config) (hart : Nat) (result : Option Nat)
    (uti : UserTrapInfo) (st : KState) : Nat × KState :=
  let uti1 := { uti with listening_receiver_uintc_id := none }
  let st1 := { st with trapInfo := some uti1 }
  (result.getD 0, set_listening_receiver_id cfg hart none st1)

/-- `uipi_receiver_ctl_impl`. -/
def uipi_receiver_ctl_impl (cfg : Config) (mmapOk translateOk : Bool) (hart : Nat)
    (flags receiver_id : Nat) (st : KState) : CtlResult × KState :=
  if flags &&& RECEIVER_FLAG_MASK ≠ flags then (CtlResult.err (-1), st) else
  match st.trapInfo with
  | none => (CtlResult.err (-1), st)
  | some uti =>
    -- only in this case the code does not bother with receiver_id
    if flags = FLAG_UNLISTEN then
      let r := unlisten cfg hart none uti st
      (CtlResult.ok r.1, r.2)
    else
    match
      (if flags &&& FLAG_CREATE ≠ 0 then
        match ReceiverHandle.new cfg st with
        | (none, st1) => Except.error (CtlResult.err (-1), st1)
        | (some info, st1) =>
          if mmapOk then
            if (uti.uipi_receivers.lookup info.id).isSome then
              Except.error (CtlResult.panicked, st1)
            else
              let uti1 := { uti with uipi_receivers := (info.id, info) :: uti.uipi_receivers }
              Except.ok (info, { st1 with trapInfo := some uti1 })
          else
            Except.error (CtlResult.err (-1), ReceiverHandle.drop cfg info st1)
      else
        match find_receiver_info uti receiver_id with
        | Except.ok info => Except.ok (info, st)
        | Except.error e => Except.error (CtlResult.err e, st)) with
    | Except.error r => r
    | Except.ok (receiver_info, st2) =>
      if flags &&& FLAG_GET_INFO ≠ 0 ∧ translateOk = false then (CtlResult.err (-1), st2)
      else
        let st3 :=
          if flags &&& FLAG_LISTEN ≠ 0 then
            match (set_listening_receiver_id cfg hart (some receiver_info.uintc_id) st2).trapInfo with
            | some uti3 =>
              { set_listening_receiver_id cfg hart (some receiver_info.uintc_id) st2 with
                trapInfo := some { uti3 with
                  listening_receiver_uintc_id := some receiver_info.uintc_id } }
            | none => set_listening_receiver_id cfg hart (some receiver_info.uintc_id) st2
          else st2
        let st4 :=
          if flags &&& FLAG_UNLISTEN ≠ 0 then
            match st3.trapInfo with
            | some uti4 => (unlisten cfg hart (some receiver_info.id) uti4 st3).2
            | none => st3
          else st3
        if flags &&& FLAG_RELEASE ≠ 0 then
          match st4.trapInfo with
          | some uti5 =>
            let st5 :=
              if uti5.listening_receiver_uintc_id = some receiver_info.uintc_id then
                set_listening_receiver_id cfg hart none st4
              else st4
            -- `mmio_unmap` failure is only a warning
            if (uti5.uipi_receivers.lookup receiver_info.id).isNone then
              (CtlResult.panicked, st5)
            else
              let uti6 := { uti5 with uipi_receivers :=
                uti5.uipi_receivers.filter (fun p => p.1 ≠ receiver_info.id) }
              let st6 := { st5 with trapInfo := some uti6 }
              (CtlResult.ok receiver_info.id, ReceiverHandle.drop cfg receiver_info st6)
          | none => (CtlResult.panicked, st4)
        else (CtlResult.ok receiver_info.id, st4)

/-- `uipi_connection_ctl_impl`: resolve both ids in the caller's registries,
then flip the routing-matrix bit. -/
def uipi_connection_ctl_impl (cfg : Config) (sender_id receiver_id : Nat)
    (connected : Bool) (st : KState) : CtlResult × KState :=
  match st.trapInfo with
  | none => (CtlResult.err (-1), st)
  | some uti =>
    match find_sender_info uti sender_id with
    | Except.error e => (CtlResult.err e, st)
    | Except.ok sender_info =>
      match find_receiver_info uti receiver_id with
      | Except.error e => (CtlResult.err e, st)
      | Except.ok receiver_info =>
        (CtlResult.ok 0,
          set_connected cfg sender_info.uintc_id receiver_info.uintc_id connected st)

/-- `return_from_result`: the `isize` actually returned across the syscall
boundary (`none` models a kernel panic, which never returns). -/
def return_from_result (r : CtlResult) : Option Int :=
  match r with
  | CtlResult.ok u => some (Int.ofNat u)
  | CtlResult.err e => some e
  | CtlResult.panicked => none

def sys_uipi_sender_ctl (cfg : Config) (mmapOk translateOk : Bool)
    (flags sender_id : Nat) (st : KState) : Option Int × KState :=
  let r := uipi_sender_ctl_impl cfg mmapOk translateOk flags sender_id st
  (return_from_result r.1, r.2)

def sys_uipi_receiver_ctl (cfg : Config) (mmapOk translateOk : Bool) (hart : Nat)
    (flags receiver_id : Nat) (st : KState) : Option Int × KState :=
  let r := uipi_receiver_ctl_impl cfg mmapOk translateOk hart flags receiver_id st
  (return_from_result r.1, r.2)

def sys_uipi_connection_ctl (cfg : Config) (sender_id receiver_id : Nat)
    (connected : Bool) (st : KState) : Option Int × KState :=
  let r := uipi_connection_ctl_impl cfg sender_id receiver_id connected st
  (return_from_result r.1, r.2)

/-! ## Concrete instances used by witnesses and counterexamples -/

/-- A small concrete configuration: `UINTC_BASE = 0`, eight sender and eight
receiver slots. -/
def cfgA : Config :=
  { UINTC_BASE := 0, UINTC_MAX_SENDER := 8, UINTC_MAX_RECEIVER := 8 }

/-- Configuration with `UINTC_MAX_SENDER = 3`. -/
def cfgB3 : Config :=
  { UINTC_BASE := 0, UINTC_MAX_SENDER := 3, UINTC_MAX_RECEIVER := 3 }

/-- Configuration with `UINTC_MAX_SENDER = 2`. -/
def cfgB2 : Config :=
  { UINTC_BASE := 0, UINTC_MAX_SENDER := 2, UINTC_MAX_RECEIVER := 2 }

/-- A state whose logical-id pools can still allocate while both hardware
index pools are exhausted. -/
def stHwExhausted : KState :=
  { senderIdPool := ⟨1, 5, []⟩,
    senderUintcIdPool := ⟨3, 3, []⟩,
    receiverIdPool := ⟨1, 5, []⟩,
    receiverUintcIdPool := ⟨3, 3, []⟩,
    mem := fun _ => 0,
    trapInfo := some utiEmpty,
    log := [] }

/-! ## Claim C8: unknown flag bits are rejected with no state change -/

lemma land_ne_of_stray_bit (flags mask : Nat)
    (h : ∃ i, flags.testBit i = true ∧ mask.testBit i = false) :
    flags &&& mask ≠ flags := by
  obtain ⟨i, hf, hm⟩ := h
  intro heq
  have h2 := congrArg (fun x => Nat.testBit x i) heq
  simp only [Nat.testBit_and, hf, hm, Bool.and_false] at h2
  cases h2

/-- C8: for every flags argument containing a bit outside the defined set
(`{CREATE, RELEASE, GET_INFO}`, mask 7, for `sender_ctl`; those plus
`{LISTEN, UNLISTEN}`, mask 31, for `receiver_ctl`), the call returns -1 and
leaves the entire kernel state (registries, pools, MMIO) unchanged. -/
theorem invalid_flags_rejected (cfg : Config) (mmapOk translateOk : Bool)
    (hart flags sender_id receiver_id : Nat) (st : KState) :
    ((∃ i, flags.testBit i = true ∧ SENDER_FLAG_MASK.testBit i = false) →
      uipi_sender_ctl_impl cfg mmapOk translateOk flags sender_id st =
        (CtlResult.err (-1), st)) ∧
    ((∃ i, flags.testBit i = true ∧ RECEIVER_FLAG_MASK.testBit i = false) →
      uipi_receiver_ctl_impl cfg mmapOk translateOk hart flags receiver_id st =
        (CtlResult.err (-1), st)) := by
  constructor
  · intro h
    unfold uipi_sender_ctl_impl
    rw [if_pos (land_ne_of_stray_bit flags SENDER_FLAG_MASK h)]
  · intro h
    unfold uipi_receiver_ctl_impl
    rw [if_pos (land_ne_of_stray_bit flags RECEIVER_FLAG_MASK h)]

/-- Witness for C8: flag value 32 (bit 5, outside both masks) is rejected by
both control calls on the fresh state, which is returned unchanged. -/
theorem invalid_flags_rejected_witness :
    uipi_sender_ctl_impl cfgA true true 32 0 (freshKState cfgA) =
      (CtlResult.err (-1), freshKState cfgA) ∧
    uipi_receiver_ctl_impl cfgA true true 0 32 0 (freshKState cfgA) =
      (CtlResult.err (-1), freshKState cfgA) := by
  have h := invalid_flags_rejected cfgA true true 0 32 0 0 (freshKState cfgA)
  exact ⟨h.1 ⟨5, by decide, by decide⟩, h.2 ⟨5, by decide, by decide⟩⟩

/-! ## Claim C1: alloc failure during handle construction leaks the logical id

In `SenderHandle::new` the two allocations are sequenced with `?`; when the
hardware-index allocation fails the already-allocated logical id is simply
dropped (`SenderId` is `Copy` and has no destructor), so nothing returns it
to its pool. -/

lemma alloc_changes_pool (s : StackIntegerAllocator) (v : Nat)
    (h : s.alloc.1 = some v) : s.alloc.2 ≠ s := by
  obtain ⟨cur, endv, rec⟩ := s
  cases rec with
  | cons t rest =>
    intro he
    have h2 : rest = t :: rest := congrArg StackIntegerAllocator.recycled he
    exact (List.cons_ne_self t rest) h2.symm
  | nil =>
    by_cases hce : cur = endv
    · simp [StackIntegerAllocator.alloc, hce] at h
    · intro he
      have h2 := congrArg StackIntegerAllocator.current he
      simp only [StackIntegerAllocator.alloc, if_neg hce] at h2
      omega

lemma senderId_alloc_some_pool (st : KState) (v : Nat)
    (h : (SenderId.alloc st).1 = some v) :
    (SenderId.alloc st).2.senderIdPool = st.senderIdPool.alloc.2 ∧
    st.senderIdPool.alloc.1 = some v := by
  unfold SenderId.alloc at h ⊢
  rcases ha : st.senderIdPool.alloc with ⟨o, p⟩
  rw [ha] at h
  cases o with
  | none => simp at h
  | some w =>
    by_cases hw : w = 0
    · simp [hw] at h
    · simp only [if_neg hw, Option.some.injEq] at h
      subst h
      simp [if_neg hw]

lemma receiverId_alloc_some_pool (st : KState) (v : Nat)
    (h : (ReceiverId.alloc st).1 = some v) :
    (ReceiverId.alloc st).2.receiverIdPool = st.receiverIdPool.alloc.2 ∧
    st.receiverIdPool.alloc.1 = some v := by
  unfold ReceiverId.alloc at h ⊢
  rcases ha : st.receiverIdPool.alloc with ⟨o, p⟩
  rw [ha] at h
  cases o with
  | none => simp at h
  | some w =>
    by_cases hw : w = 0
    · simp [hw] at h
    · simp only [if_neg hw, Option.some.injEq] at h
      subst h
      simp [if_neg hw]

/-- C1 (amended): in endpoint handle construction, if the logical id
allocation succeeds but the subsequent hardware-index allocation fails, the
construction fails, but the logical id is NOT returned to its pool: the final
state is exactly the state left by the failed hardware-index allocation, in
which the logical-id pool differs from its pre-call state (the id stays
consumed). -/
theorem create_alloc_failure_leaks_id (cfg : Config) (st : KState) (v w : Nat)
    (hs : (SenderId.alloc st).1 = some v)
    (hu : (SenderUintcId.alloc (SenderId.alloc st).2).1 = none)
    (hrv : (ReceiverId.alloc st).1 = some w)
    (hru : (ReceiverUintcId.alloc (ReceiverId.alloc st).2).1 = none) :
    (SenderHandle.new cfg st =
      (none, (SenderUintcId.alloc (SenderId.alloc st).2).2) ∧
      (SenderUintcId.alloc (SenderId.alloc st).2).2.senderIdPool ≠ st.senderIdPool) ∧
    (ReceiverHandle.new cfg st =
      (none, (ReceiverUintcId.alloc (ReceiverId.alloc st).2).2) ∧
      (ReceiverUintcId.alloc (ReceiverId.alloc st).2).2.receiverIdPool ≠
        st.receiverIdPool) := by
  constructor
  · constructor
    · unfold SenderHandle.new
      rcases h1 : SenderId.alloc st with ⟨o1, st1⟩
      cases o1 with
      | none => rw [h1] at hs; simp at hs
      | some id =>
        rcases h2 : SenderUintcId.alloc st1 with ⟨o2, st2⟩
        cases o2 with
        | none => simp [h1, h2]
        | some u => rw [h1] at hu; rw [h2] at hu; simp at hu
    · have hpool : (SenderUintcId.alloc (SenderId.alloc st).2).2.senderIdPool =
          (SenderId.alloc st).2.senderIdPool := by
        unfold SenderUintcId.alloc
        rcases h2 : (SenderId.alloc st).2.senderUintcIdPool.alloc with ⟨o2, p2⟩
        cases o2 with
        | none => rfl
        | some u => by_cases hu0 : u = 0 <;> simp [hu0]
      rw [hpool]
      obtain ⟨hq, hsome⟩ := senderId_alloc_some_pool st v hs
      rw [hq]
      intro he
      exact alloc_changes_pool st.senderIdPool v hsome he
  · constructor
    · unfold ReceiverHandle.new
      rcases h1 : ReceiverId.alloc st with ⟨o1, st1⟩
      cases o1 with
      | none => rw [h1] at hrv; simp at hrv
      | some id =>
        rcases h2 : ReceiverUintcId.alloc st1 with ⟨o2, st2⟩
        cases o2 with
        | none => simp [h1, h2]
        | some u => rw [h1] at hru; rw [h2] at hru; simp at hru
    · have hpool : (ReceiverUintcId.alloc (ReceiverId.alloc st).2).2.receiverIdPool =
          (ReceiverId.alloc st).2.receiverIdPool := by
        unfold ReceiverUintcId.alloc
        rcases h2 : (ReceiverId.alloc st).2.receiverUintcIdPool.alloc with ⟨o2, p2⟩
        cases o2 with
        | none => rfl
        | some u => by_cases hu0 : u = 0 <;> simp [hu0]
      rw [hpool]
      obtain ⟨hq, hsome⟩ := receiverId_alloc_some_pool st w hrv
      rw [hq]
      intro he
      exact alloc_changes_pool st.receiverIdPool w hsome he

/-- Counterexample for C1 as stated: on `stHwExhausted` (logical pools can
allocate, hardware pools exhausted), handle construction fails as claimed,
but the logical-id pools are NOT left in their pre-call state. -/
theorem create_alloc_failure_not_rolled_back :
    ((SenderHandle.new cfgA stHwExhausted).1 = none ∧
      (SenderHandle.new cfgA stHwExhausted).2.senderIdPool ≠
        stHwExhausted.senderIdPool) ∧
    ((ReceiverHandle.new cfgA stHwExhausted).1 = none ∧
      (ReceiverHandle.new cfgA stHwExhausted).2.receiverIdPool ≠
        stHwExhausted.receiverIdPool) := by
  decide

/-! ## Claim C4: destruction order — bitmaps, then bound id, then pools -/

lemma zeroWords_succ (a n : Nat) (st : KState) :
    zeroWords a (n + 1) st = writeVolatile (zeroWords a n st) (a + n * 4) 0 := by
  rw [zeroWords, zeroWords, List.range_succ, List.foldl_append]
  rfl

lemma zeroWords_log (a w : Nat) (st : KState) :
    (zeroWords a w st).log =
      st.log ++ (List.range w).map (fun i => Event.mmioWrite (a + i * 4) 0) := by
  induction w generalizing st with
  | zero => simp [zeroWords]
  | succ n ih =>
    rw [zeroWords_succ, writeVolatile_log, ih, List.range_succ, List.map_append]
    simp

lemma zeroWords_mem_lt (a w x : Nat) (st : KState) (h : x < a) :
    (zeroWords a w st).mem x = st.mem x := by
  induction w generalizing st with
  | zero => rfl
  | succ n ih =>
    rw [zeroWords_succ, writeVolatile_mem_ne _ _ _ _ (by omega), ih]

lemma zeroWords_trapInfo (a w : Nat) (st : KState) :
    (zeroWords a w st).trapInfo = st.trapInfo := by
  induction w generalizing st with
  | zero => rfl
  | succ n ih => rw [zeroWords_succ, writeVolatile_trapInfo, ih]

/-- C4: for every endpoint handle, destruction first zeroes all
`ceil(UINTC_MAX_RECEIVER / 32)` words of the slot's enable bitmap, then of
its pending bitmap, then writes 0 to the slot's bound-id register, and only
after both MMIO steps returns the logical id and then the hardware index to
their allocator pools — as recorded, in that order, by the event log of the
drop, for sender handles and receiver handles alike. -/
theorem handle_drop_order (cfg : Config) (sinfo : SenderInfo)
    (rinfo : ReceiverInfo) (st st' : KState) :
    (SenderHandle.drop cfg sinfo st).log =
      st.log
      ++ (List.range ((cfg.UINTC_MAX_RECEIVER + 31) / 32)).map
          (fun i => Event.mmioWrite
            (sender_addr_start cfg sinfo.uintc_id + SENDER_ENABLE_OFFSET + i * 4) 0)
      ++ (List.range ((cfg.UINTC_MAX_RECEIVER + 31) / 32)).map
          (fun i => Event.mmioWrite
            (sender_addr_start cfg sinfo.uintc_id + SENDER_PENDING_OFFSET + i * 4) 0)
      ++ [Event.mmioWrite (sender_addr_start cfg sinfo.uintc_id + SENDER_ID_OFFSET) 0]
      ++ [Event.poolReturn PoolKind.senderId sinfo.id,
          Event.poolReturn PoolKind.senderUintcId sinfo.uintc_id] ∧
    (ReceiverHandle.drop cfg rinfo st').log =
      st'.log
      ++ (List.range ((cfg.UINTC_MAX_RECEIVER + 31) / 32)).map
          (fun i => Event.mmioWrite
            (receiver_addr_start cfg rinfo.uintc_id + RECEIVER_ENABLE_OFFSET + i * 4) 0)
      ++ (List.range ((cfg.UINTC_MAX_RECEIVER + 31) / 32)).map
          (fun i => Event.mmioWrite
            (receiver_addr_start cfg rinfo.uintc_id + RECEIVER_PENDING_OFFSET + i * 4) 0)
      ++ [Event.mmioWrite (receiver_addr_start cfg rinfo.uintc_id + RECEIVER_ID_OFFSET) 0]
      ++ [Event.poolReturn PoolKind.receiverId rinfo.id,
          Event.poolReturn PoolKind.receiverUintcId rinfo.uintc_id] := by
  constructor
  · simp only [SenderHandle.drop, SenderUintcId.dealloc, SenderId.dealloc, drop_sender,
      set_sender_id, writeVolatile_log, zeroWords_log, Option.getD_none, Nat.zero_mod,
      List.append_assoc, List.singleton_append, List.cons_append, List.nil_append]
  · simp only [ReceiverHandle.drop, ReceiverUintcId.dealloc, ReceiverId.dealloc,
      drop_receiver, set_receiver_id, writeVolatile_log, zeroWords_log, Option.getD_none,
      Nat.zero_mod, List.append_assoc, List.singleton_append, List.cons_append,
      List.nil_append]

/-- Witness for C1 (amended), at the same concrete state. -/
theorem create_alloc_failure_leaks_id_witness :
    SenderHandle.new cfgA stHwExhausted =
      (none, (SenderUintcId.alloc (SenderId.alloc stHwExhausted).2).2) ∧
    (SenderUintcId.alloc (SenderId.alloc stHwExhausted).2).2.senderIdPool ≠
      stHwExhausted.senderIdPool := by
  have h := create_alloc_failure_leaks_id cfgA stHwExhausted 1 1
    (by decide) (by decide) (by decide) (by decide)
  exact h.1

/-! ## Claim C7: flags exactly UNLISTEN -/

/-- C7: when `receiver_ctl` is called with flags exactly `UNLISTEN`, it
ignores `receiver_id_in` (the result is identical for any two id arguments),
writes 0 to the calling hart's listening register, sets the task's
`listening_receiver_uintc_id` to `none`, returns 0, and touches nothing else
(pools and every other MMIO word unchanged) — with no requirement that a
LISTEN be in effect. -/
theorem unlisten_exact_flags (cfg : Config) (mmapOk translateOk : Bool)
    (hart receiver_id receiver_id' : Nat) (st : KState) (uti : UserTrapInfo)
    (hti : st.trapInfo = some uti) :
    (uipi_receiver_ctl_impl cfg mmapOk translateOk hart FLAG_UNLISTEN receiver_id st).1 =
      CtlResult.ok 0 ∧
    (uipi_receiver_ctl_impl cfg mmapOk translateOk hart FLAG_UNLISTEN receiver_id st).2.trapInfo =
      some { uti with listening_receiver_uintc_id := none } ∧
    (uipi_receiver_ctl_impl cfg mmapOk translateOk hart FLAG_UNLISTEN receiver_id st).2.mem
      (cfg.UINTC_BASE + CONTEXT_BASE + CONTEXT_STRIDE * hart) = 0 ∧
    (∀ a, a ≠ cfg.UINTC_BASE + CONTEXT_BASE + CONTEXT_STRIDE * hart →
      (uipi_receiver_ctl_impl cfg mmapOk translateOk hart FLAG_UNLISTEN receiver_id st).2.mem a =
        st.mem a) ∧
    (uipi_receiver_ctl_impl cfg mmapOk translateOk hart FLAG_UNLISTEN receiver_id st).2.senderIdPool =
      st.senderIdPool ∧
    (uipi_receiver_ctl_impl cfg mmapOk translateOk hart FLAG_UNLISTEN receiver_id st).2.senderUintcIdPool =
      st.senderUintcIdPool ∧
    (uipi_receiver_ctl_impl cfg mmapOk translateOk hart FLAG_UNLISTEN receiver_id st).2.receiverIdPool =
      st.receiverIdPool ∧
    (uipi_receiver_ctl_impl cfg mmapOk translateOk hart FLAG_UNLISTEN receiver_id st).2.receiverUintcIdPool =
      st.receiverUintcIdPool ∧
    uipi_receiver_ctl_impl cfg mmapOk translateOk hart FLAG_UNLISTEN receiver_id st =
      uipi_receiver_ctl_impl cfg mmapOk translateOk hart FLAG_UNLISTEN receiver_id' st := by
  obtain ⟨p1, p2, p3, p4, mem0, ti, lg⟩ := st
  obtain rfl : ti = some uti := hti
  have hred : ∀ rid : Nat,
      uipi_receiver_ctl_impl cfg mmapOk translateOk hart FLAG_UNLISTEN rid
        ⟨p1, p2, p3, p4, mem0, some uti, lg⟩ =
      (CtlResult.ok 0,
        set_listening_receiver_id cfg hart none
          ⟨p1, p2, p3, p4, mem0,
            some { uti with listening_receiver_uintc_id := none }, lg⟩) := by
    intro rid
    rfl
  refine ⟨?_, ?_, ?_, ?_, ?_, ?_, ?_, ?_, ?_⟩
  · rw [hred]
  · rw [hred]; rfl
  · rw [hred]
    simp [set_listening_receiver_id, writeVolatile]
  · intro a ha
    rw [hred]
    exact writeVolatile_mem_ne _ _ _ _ ha
  · rw [hred]; rfl
  · rw [hred]; rfl
  · rw [hred]; rfl
  · rw [hred]; rfl
  · rw [hred, hred]

/-- Witness for C7: on the fresh state, `receiver_ctl(UNLISTEN, 42, _)`
returns 0 and clears the listening state. -/
theorem unlisten_exact_flags_witness :
    (uipi_receiver_ctl_impl cfgA true true 0 FLAG_UNLISTEN 42 (freshKState cfgA)).1 =
      CtlResult.ok 0 ∧
    (uipi_receiver_ctl_impl cfgA true true 0 FLAG_UNLISTEN 42 (freshKState cfgA)).2.trapInfo =
      some { utiEmpty with listening_receiver_uintc_id := none } := by
  have h := unlisten_exact_flags cfgA true true 0 42 43 (freshKState cfgA) utiEmpty rfl
  exact ⟨h.1, h.2.1⟩

/-! ## Claim C9: RELEASE of the currently-listening receiver -/

lemma ReceiverHandle.drop_trapInfo (cfg : Config) (info : ReceiverInfo) (st : KState) :
    (ReceiverHandle.drop cfg info st).trapInfo = st.trapInfo := by
  simp only [ReceiverHandle.drop, ReceiverUintcId.dealloc, ReceiverId.dealloc,
    drop_receiver, set_receiver_id, writeVolatile_trapInfo, zeroWords_trapInfo]

lemma ReceiverHandle.drop_mem_lt (cfg : Config) (info : ReceiverInfo) (st : KState)
    (x : Nat) (h : x < cfg.UINTC_BASE + RECEIVER_BASE) :
    (ReceiverHandle.drop cfg info st).mem x = st.mem x := by
  have hb : ∀ off : Nat, x < receiver_addr_start cfg info.uintc_id + off := by
    intro off
    unfold receiver_addr_start
    omega
  show (drop_receiver cfg info.uintc_id st).mem x = st.mem x
  unfold drop_receiver set_receiver_id
  rw [writeVolatile_mem_ne _ _ _ _ (Nat.ne_of_lt (hb RECEIVER_ID_OFFSET)),
    zeroWords_mem_lt _ _ _ _ (hb RECEIVER_PENDING_OFFSET),
    zeroWords_mem_lt _ _ _ _ (hb RECEIVER_ENABLE_OFFSET)]

/-- C9: after `receiver_ctl` with RELEASE destroys the receiver on which the
task is currently listening, the call succeeds, the hart-context listening
register is cleared to 0, but the task's `listening_receiver_uintc_id` field
still holds the released receiver's uintc_id rather than being reset to
`none`. -/
theorem release_listening_clears_register_keeps_field (cfg : Config)
    (mmapOk translateOk : Bool) (hart rid : Nat) (st : KState)
    (uti : UserTrapInfo) (ri : ReceiverInfo)
    (hti : st.trapInfo = some uti)
    (hlook : uti.uipi_receivers.lookup rid = some ri)
    (hid : ri.id = rid)
    (hrid0 : rid ≠ 0) (hridlt : rid < 2 ^ 32)
    (hlisten : uti.listening_receiver_uintc_id = some ri.uintc_id)
    (hhart : hart < 2 ^ 23) :
    (uipi_receiver_ctl_impl cfg mmapOk translateOk hart FLAG_RELEASE rid st).1 =
      CtlResult.ok rid ∧
    (uipi_receiver_ctl_impl cfg mmapOk translateOk hart FLAG_RELEASE rid st).2.mem
      (cfg.UINTC_BASE + CONTEXT_BASE + CONTEXT_STRIDE * hart) = 0 ∧
    ∃ uti1,
      (uipi_receiver_ctl_impl cfg mmapOk translateOk hart FLAG_RELEASE rid st).2.trapInfo =
        some uti1 ∧
      uti1.listening_receiver_uintc_id = some ri.uintc_id := by
  obtain ⟨p1, p2, p3, p4, mem0, ti, lg⟩ := st
  obtain rfl : ti = some uti := hti
  have hfind : find_receiver_info uti rid = Except.ok ri := by
    unfold find_receiver_info
    rw [if_pos hridlt, if_neg hrid0, hlook]
  refine ⟨?_, ?_, ?_⟩
  · simp +decide [uipi_receiver_ctl_impl, FLAG_RELEASE, FLAG_CREATE, FLAG_GET_INFO,
      FLAG_LISTEN, FLAG_UNLISTEN, RECEIVER_FLAG_MASK, hfind, hid, hlook, hlisten]
  · simp +decide [uipi_receiver_ctl_impl, FLAG_RELEASE, FLAG_CREATE, FLAG_GET_INFO,
      FLAG_LISTEN, FLAG_UNLISTEN, RECEIVER_FLAG_MASK, hfind, hid, hlook, hlisten]
    rw [ReceiverHandle.drop_mem_lt _ _ _ _
      (by simp only [CONTEXT_BASE, CONTEXT_STRIDE, RECEIVER_BASE]; omega)]
    simp [set_listening_receiver_id, writeVolatile]
  · simp +decide [uipi_receiver_ctl_impl, FLAG_RELEASE, FLAG_CREATE, FLAG_GET_INFO,
      FLAG_LISTEN, FLAG_UNLISTEN, RECEIVER_FLAG_MASK, hfind, hid, hlook, hlisten]
    rw [ReceiverHandle.drop_trapInfo]
    exact ⟨_, rfl, rfl⟩


/-! ## Claim C9 witness state -/

/-- A task that has one registered receiver `(id 1, uintc 1)` and is
listening on it. -/
def utiC9 : UserTrapInfo :=
  { uipi_senders := [],
    uipi_receivers := [(1, { id := 1, uintc_id := 1 })],
    listening_receiver_uintc_id := some 1 }

def stC9 : KState :=
  { senderIdPool := ⟨2, 8, []⟩,
    senderUintcIdPool := ⟨2, 8, []⟩,
    receiverIdPool := ⟨2, 8, []⟩,
    receiverUintcIdPool := ⟨2, 8, []⟩,
    mem := fun _ => 0,
    trapInfo := some utiC9,
    log := [] }

/-- Witness for C9: releasing the listened-to receiver 1 on hart 0 returns 1,
clears the hart register, and leaves the stale `some 1` in the task field. -/
theorem release_listening_clears_register_keeps_field_witness :
    (uipi_receiver_ctl_impl cfgA true true 0 FLAG_RELEASE 1 stC9).1 = CtlResult.ok 1 ∧
    (uipi_receiver_ctl_impl cfgA true true 0 FLAG_RELEASE 1 stC9).2.mem
      (cfgA.UINTC_BASE + CONTEXT_BASE + CONTEXT_STRIDE * 0) = 0 ∧
    ∃ uti1,
      (uipi_receiver_ctl_impl cfgA true true 0 FLAG_RELEASE 1 stC9).2.trapInfo =
        some uti1 ∧
      uti1.listening_receiver_uintc_id = some 1 :=
  release_listening_clears_register_keeps_field cfgA true true 0 1 stC9 utiC9
    { id := 1, uintc_id := 1 } rfl (by decide) rfl (by decide) (by decide) rfl (by decide)

/-! ## Claim C3: GET_INFO buffer-translation failure -/

lemma find_sender_info_error_eq (uti : UserTrapInfo) (sid : Nat) (e : Int)
    (h : find_sender_info uti sid = Except.error e) : e = -1 := by
  unfold find_sender_info at h
  by_cases h1 : sid < 2 ^ 32
  · rw [if_pos h1] at h
    by_cases h2 : sid = 0
    · rw [if_pos h2] at h
      simp only [Except.error.injEq] at h
      exact h.symm
    · rw [if_neg h2] at h
      rcases hl : uti.uipi_senders.lookup sid with _ | info
      · rw [hl] at h
        simp only [Except.error.injEq] at h
        exact h.symm
      · rw [hl] at h
        simp at h
  · rw [if_neg h1] at h
    simp only [Except.error.injEq] at h
    exact h.symm

lemma find_receiver_info_error_eq (uti : UserTrapInfo) (rid : Nat) (e : Int)
    (h : find_receiver_info uti rid = Except.error e) : e = -1 := by
  unfold find_receiver_info at h
  by_cases h1 : rid < 2 ^ 32
  · rw [if_pos h1] at h
    by_cases h2 : rid = 0
    · rw [if_pos h2] at h
      simp only [Except.error.injEq] at h
      exact h.symm
    · rw [if_neg h2] at h
      rcases hl : uti.uipi_receivers.lookup rid with _ | info
      · rw [hl] at h
        simp only [Except.error.injEq] at h
        exact h.symm
      · rw [hl] at h
        simp at h
  · rw [if_neg h1] at h
    simp only [Except.error.injEq] at h
    exact h.symm

/-- C3 (amended): a `sender_ctl` or `receiver_ctl` call whose flags request
GET_INFO but not CREATE, issued while the user buffer fails translation,
returns -1 and causes no state change at all (registries, pools and MMIO are
exactly the pre-call state).  (When CREATE is set in the same call, the
creation is NOT rolled back; see the counterexample.) -/
theorem getinfo_translate_failure_rejected (cfg : Config) (mmapOk : Bool)
    (hart flags sender_id receiver_id : Nat) (st : KState)
    (hget : flags &&& FLAG_GET_INFO ≠ 0) (hnoc : flags &&& FLAG_CREATE = 0) :
    uipi_sender_ctl_impl cfg mmapOk false flags sender_id st =
      (CtlResult.err (-1), st) ∧
    uipi_receiver_ctl_impl cfg mmapOk false hart flags receiver_id st =
      (CtlResult.err (-1), st) := by
  constructor
  · unfold uipi_sender_ctl_impl
    by_cases hm : flags &&& SENDER_FLAG_MASK ≠ flags
    · rw [if_pos hm]
    · rw [if_neg hm]
      rcases hti : st.trapInfo with _ | uti
      · rfl
      · rcases hf : find_sender_info uti sender_id with e | info
        · have he := find_sender_info_error_eq uti sender_id e hf
          subst he
          simp [hnoc, hf]
        · simp [hnoc, hf, hget]
  · unfold uipi_receiver_ctl_impl
    by_cases hm : flags &&& RECEIVER_FLAG_MASK ≠ flags
    · rw [if_pos hm]
    · rw [if_neg hm]
      rcases hti : st.trapInfo with _ | uti
      · rfl
      · have hne : flags ≠ FLAG_UNLISTEN := by
          intro he
          rw [he] at hget
          exact hget (by decide)
        rcases hf : find_receiver_info uti receiver_id with e | info
        · have he := find_receiver_info_error_eq uti receiver_id e hf
          subst he
          simp [hne, hnoc, hf]
        · simp [hne, hnoc, hf, hget]

/-- Witness for C3 (amended): a pure GET_INFO call with a failing buffer on a
state with one registered endpoint of each kind returns -1 and leaves the
state untouched. -/
theorem getinfo_translate_failure_rejected_witness :
    uipi_sender_ctl_impl cfgA true false FLAG_GET_INFO 1 stC9 =
      (CtlResult.err (-1), stC9) ∧
    uipi_receiver_ctl_impl cfgA true false 0 FLAG_GET_INFO 1 stC9 =
      (CtlResult.err (-1), stC9) :=
  getinfo_translate_failure_rejected cfgA true 0 FLAG_GET_INFO 1 1 stC9
    (by decide) (by decide)

/-- Counterexample for C3 as stated: with CREATE and GET_INFO in one call and
a failing user buffer, the call returns -1 but the state HAS changed — the
sender-id pool has advanced (and the created endpoint stays registered), so
the claim that such calls cause no state change is false. -/
theorem getinfo_translate_failure_with_create_changes_state :
    (uipi_sender_ctl_impl cfgA true false 5 0 (freshKState cfgA)).1 =
      CtlResult.err (-1) ∧
    (uipi_sender_ctl_impl cfgA true false 5 0 (freshKState cfgA)).2.senderIdPool ≠
      (freshKState cfgA).senderIdPool ∧
    (uipi_sender_ctl_impl cfgA true false 5 0 (freshKState cfgA)).2.trapInfo ≠
      (freshKState cfgA).trapInfo := by
  decide



/-! ## Claim C5: connect then disconnect on the enable-bitmap bit -/

@[simp] lemma set_connected_trapInfo (cfg : Config) (s r : Nat) (c : Bool)
    (st : KState) : (set_connected cfg s r c st).trapInfo = st.trapInfo := rfl

lemma clear_bit_testBit (w k : Nat) (hk : k < 32) :
    (((w ||| 2 ^ k) % 2 ^ 32 &&& ((2 ^ 32 - 1) ^^^ 2 ^ k)) % 2 ^ 32).testBit k = false := by
  rw [Nat.testBit_mod_two_pow, Nat.testBit_and, Nat.testBit_mod_two_pow,
    Nat.testBit_xor, Nat.testBit_two_pow_sub_one, Nat.testBit_two_pow_self]
  simp [hk]

/-- C5 (amended): for every sender `s` and receiver `r` registered to the
caller, `connection_ctl(s, r, true)` followed by `connection_ctl(s, r, false)`
succeeds and leaves the bit for `r.uintc_id` in the enable-bitmap word
addressed for `(s.uintc_id, r.uintc_id)` CLEARED; hence that bit equals its
pre-call value exactly when it was clear before the first call (when the bit
was already set, the pair of calls clears it). -/
theorem connect_disconnect_clears_bit (cfg : Config) (sid rid : Nat) (st : KState)
    (uti : UserTrapInfo) (si : SenderInfo) (ri : ReceiverInfo)
    (hti : st.trapInfo = some uti)
    (hs : find_sender_info uti sid = Except.ok si)
    (hr : find_receiver_info uti rid = Except.ok ri) :
    (uipi_connection_ctl_impl cfg sid rid true st).1 = CtlResult.ok 0 ∧
    (uipi_connection_ctl_impl cfg sid rid false
      (uipi_connection_ctl_impl cfg sid rid true st).2).1 = CtlResult.ok 0 ∧
    Nat.testBit
      ((uipi_connection_ctl_impl cfg sid rid false
          (uipi_connection_ctl_impl cfg sid rid true st).2).2.mem
        (sender_addr_start cfg si.uintc_id + SENDER_ENABLE_OFFSET + ri.uintc_id / 32))
      (ri.uintc_id % 32) = false ∧
    (Nat.testBit (st.mem (sender_addr_start cfg si.uintc_id + SENDER_ENABLE_OFFSET +
          ri.uintc_id / 32)) (ri.uintc_id % 32) = false →
      Nat.testBit
        ((uipi_connection_ctl_impl cfg sid rid false
            (uipi_connection_ctl_impl cfg sid rid true st).2).2.mem
          (sender_addr_start cfg si.uintc_id + SENDER_ENABLE_OFFSET + ri.uintc_id / 32))
        (ri.uintc_id % 32) =
      Nat.testBit (st.mem (sender_addr_start cfg si.uintc_id + SENDER_ENABLE_OFFSET +
          ri.uintc_id / 32)) (ri.uintc_id % 32)) := by
  have hk : ri.uintc_id % 32 < 32 := Nat.mod_lt _ (by norm_num)
  have hred1 : uipi_connection_ctl_impl cfg sid rid true st =
      (CtlResult.ok 0, set_connected cfg si.uintc_id ri.uintc_id true st) := by
    simp [uipi_connection_ctl_impl, hti, hs, hr]
  have hti2 : (set_connected cfg si.uintc_id ri.uintc_id true st).trapInfo = some uti := by
    rw [set_connected_trapInfo, hti]
  have hred2 : uipi_connection_ctl_impl cfg sid rid false
      (set_connected cfg si.uintc_id ri.uintc_id true st) =
      (CtlResult.ok 0, set_connected cfg si.uintc_id ri.uintc_id false
        (set_connected cfg si.uintc_id ri.uintc_id true st)) := by
    simp [uipi_connection_ctl_impl, hti2, hti, hs, hr]
  have hbit : Nat.testBit
      ((set_connected cfg si.uintc_id ri.uintc_id false
          (set_connected cfg si.uintc_id ri.uintc_id true st)).mem
        (sender_addr_start cfg si.uintc_id + SENDER_ENABLE_OFFSET + ri.uintc_id / 32))
      (ri.uintc_id % 32) = false := by
    simp +decide only [set_connected, writeVolatile_mem_self]
    rw [Nat.shiftLeft_eq, one_mul]
    unfold U32_MASK
    exact clear_bit_testBit _ _ hk
  refine ⟨?_, ?_, ?_, ?_⟩
  · rw [hred1]
  · rw [hred1, hred2]
  · rw [hred1, hred2]
    exact hbit
  · intro hpre
    rw [hred1, hred2]
    rw [hbit, hpre]

/-- The task state for the C5 instances: one sender and one receiver, both
`(id 1, uintc 1)`; the enable-bitmap word for `(1, 1)` has bit 1 set. -/
def utiC5 : UserTrapInfo :=
  { uipi_senders := [(1, { id := 1, uintc_id := 1 })],
    uipi_receivers := [(1, { id := 1, uintc_id := 1 })],
    listening_receiver_uintc_id := none }

def stC5 : KState :=
  { senderIdPool := ⟨2, 8, []⟩,
    senderUintcIdPool := ⟨2, 8, []⟩,
    receiverIdPool := ⟨2, 8, []⟩,
    receiverUintcIdPool := ⟨2, 8, []⟩,
    mem := fun a => if a = 0x3800 then 2 else 0,
    trapInfo := some utiC5,
    log := [] }

/-- Counterexample for C5 as stated: starting with the `(1,1)` enable bit set
(word value 2 at address 0x3800), connect then disconnect leaves the bit
CLEARED, different from its value before the first call. -/
theorem connect_disconnect_flips_set_bit :
    Nat.testBit
      ((uipi_connection_ctl_impl cfgA 1 1 false
          (uipi_connection_ctl_impl cfgA 1 1 true stC5).2).2.mem 0x3800) 1 ≠
    Nat.testBit (stC5.mem 0x3800) 1 := by
  decide

/-- Witness for C5 (amended) at the same concrete state. -/
theorem connect_disconnect_clears_bit_witness :
    (uipi_connection_ctl_impl cfgA 1 1 true stC5).1 = CtlResult.ok 0 ∧
    (uipi_connection_ctl_impl cfgA 1 1 false
      (uipi_connection_ctl_impl cfgA 1 1 true stC5).2).1 = CtlResult.ok 0 ∧
    Nat.testBit
      ((uipi_connection_ctl_impl cfgA 1 1 false
          (uipi_connection_ctl_impl cfgA 1 1 true stC5).2).2.mem
        (sender_addr_start cfgA 1 + SENDER_ENABLE_OFFSET + 1 / 32)) (1 % 32) = false := by
  have h := connect_disconnect_clears_bit cfgA 1 1 stC5 utiC5
    { id := 1, uintc_id := 1 } { id := 1, uintc_id := 1 } rfl rfl rfl
  exact ⟨h.1, h.2.1, h.2.2.1⟩



/-! ## Claim C2: successive sender CREATE calls from fresh pools -/

/-- Runs `n` consecutive `sender_ctl(CREATE, 0, _)` calls (with every user
page mapping succeeding), collecting the results. -/
def senderCreateRun (cfg : Config) : Nat → KState → List CtlResult × KState
  | 0, st => ([], st)
  | n + 1, st =>
    let r := uipi_sender_ctl_impl cfg true true FLAG_CREATE 0 st
    let rest := senderCreateRun cfg n r.2
    (r.1 :: rest.1, rest.2)

lemma alloc_fresh (c N : Nat) (h : c < N) :
    StackIntegerAllocator.alloc ⟨c, N, []⟩ = (some c, ⟨c + 1, N, []⟩) := by
  simp [StackIntegerAllocator.alloc, Nat.ne_of_lt h]

lemma alloc_exhausted (N : Nat) :
    StackIntegerAllocator.alloc ⟨N, N, []⟩ = (none, ⟨N, N, []⟩) := by
  simp [StackIntegerAllocator.alloc]

lemma lookup_none_of_keys_lt {β : Type} (c : Nat) (l : List (Nat × β))
    (h : ∀ p ∈ l, p.1 < c) : List.lookup c l = none := by
  induction l with
  | nil => rfl
  | cons p rest ih =>
    obtain ⟨k, b⟩ := p
    have hk : k ≠ c := Nat.ne_of_lt (h (k, b) (by simp))
    have hk2 : (c == k) = false := beq_eq_false_iff_ne.mpr (Ne.symm hk)
    simp only [List.lookup, hk2]
    exact ih (fun q hq => h q (by simp [hq]))

lemma sender_create_step (cfg : Config) (c : Nat) (q3 q4 : StackIntegerAllocator)
    (mem0 : Nat → Nat) (lg : List Event) (uti : UserTrapInfo)
    (hkeys : ∀ p ∈ uti.uipi_senders, p.1 < c)
    (h1 : 1 ≤ c) (hlt : c < cfg.UINTC_MAX_SENDER) :
    uipi_sender_ctl_impl cfg true true FLAG_CREATE 0
      ⟨⟨c, cfg.UINTC_MAX_SENDER, []⟩, ⟨c, cfg.UINTC_MAX_SENDER, []⟩, q3, q4, mem0,
        some uti, lg⟩ =
    (CtlResult.ok c,
      ⟨⟨c + 1, cfg.UINTC_MAX_SENDER, []⟩, ⟨c + 1, cfg.UINTC_MAX_SENDER, []⟩, q3, q4,
        fun a => if a = sender_addr_start cfg c + SENDER_ID_OFFSET then c % 2 ^ 32 else mem0 a,
        some { uti with uipi_senders :=
          (c, { id := c, uintc_id := c }) :: uti.uipi_senders },
        lg ++ [Event.mmioWrite (sender_addr_start cfg c + SENDER_ID_OFFSET) (c % 2 ^ 32)]⟩) := by
  have halloc := alloc_fresh c cfg.UINTC_MAX_SENDER hlt
  have hlook := lookup_none_of_keys_lt c uti.uipi_senders hkeys
  have hc0 : c ≠ 0 := by omega
  simp +decide only [uipi_sender_ctl_impl, SenderHandle.new, SenderId.alloc,
    SenderUintcId.alloc, set_sender_id, writeVolatile, halloc, hlook, hc0,
    Option.isSome_none, Option.getD_some, FLAG_CREATE, SENDER_FLAG_MASK,
    FLAG_GET_INFO, FLAG_RELEASE, ite_true, ite_false]

lemma sender_create_fail (cfg : Config) (q3 q4 : StackIntegerAllocator)
    (mem0 : Nat → Nat) (lg : List Event) (uti : UserTrapInfo) :
    uipi_sender_ctl_impl cfg true true FLAG_CREATE 0
      ⟨⟨cfg.UINTC_MAX_SENDER, cfg.UINTC_MAX_SENDER, []⟩,
        ⟨cfg.UINTC_MAX_SENDER, cfg.UINTC_MAX_SENDER, []⟩, q3, q4, mem0, some uti, lg⟩ =
    (CtlResult.err (-1),
      ⟨⟨cfg.UINTC_MAX_SENDER, cfg.UINTC_MAX_SENDER, []⟩,
        ⟨cfg.UINTC_MAX_SENDER, cfg.UINTC_MAX_SENDER, []⟩, q3, q4, mem0, some uti, lg⟩) := by
  have halloc := alloc_exhausted cfg.UINTC_MAX_SENDER
  simp +decide only [uipi_sender_ctl_impl, SenderHandle.new, SenderId.alloc,
    halloc, FLAG_CREATE, SENDER_FLAG_MASK, ite_true, ite_false]

lemma senderCreateRun_spec (cfg : Config) :
    ∀ (m c : Nat) (q3 q4 : StackIntegerAllocator) (mem0 : Nat → Nat) (lg : List Event)
      (uti : UserTrapInfo),
      (∀ p ∈ uti.uipi_senders, p.1 < c) → 1 ≤ c →
      c + m = cfg.UINTC_MAX_SENDER →
      (senderCreateRun cfg (m + 1)
        ⟨⟨c, cfg.UINTC_MAX_SENDER, []⟩, ⟨c, cfg.UINTC_MAX_SENDER, []⟩, q3, q4, mem0,
          some uti, lg⟩).1 =
      (List.range m).map (fun j => CtlResult.ok (c + j)) ++ [CtlResult.err (-1)] := by
  intro m
  induction m with
  | zero =>
    intro c q3 q4 mem0 lg uti hkeys h1 hsum
    have hc : c = cfg.UINTC_MAX_SENDER := by omega
    subst hc
    rw [senderCreateRun, sender_create_fail cfg q3 q4 mem0 lg uti]
    rfl
  | succ n ih =>
    intro c q3 q4 mem0 lg uti hkeys h1 hsum
    rw [senderCreateRun, sender_create_step cfg c q3 q4 mem0 lg uti hkeys h1 (by omega)]
    have hkeys2 : ∀ p ∈ ({ uti with uipi_senders :=
        (c, { id := c, uintc_id := c }) :: uti.uipi_senders } :
          UserTrapInfo).uipi_senders, p.1 < c + 1 := by
      intro p hp
      rcases List.mem_cons.mp hp with h2 | h2
      · rw [h2]; omega
      · exact Nat.lt_succ_of_lt (hkeys p h2)
    rw [ih (c + 1) q3 q4 _ _ _ hkeys2 (by omega) (by omega)]
    rw [List.range_succ_eq_map, List.map_cons, List.map_map]
    simp only [List.cons_append, Nat.add_zero]
    have hf : ((fun j => CtlResult.ok (c + j)) ∘ fun i => i + 1) =
        (fun j => CtlResult.ok (c + 1 + j)) := by
      funext j
      simp [Function.comp]
      omega
    rw [hf]

/-- C2 (amended): starting from freshly initialised pools with
`1 ≤ UINTC_MAX_SENDER < 2 ^ 16`, and with every user-page mapping succeeding,
the first `UINTC_MAX_SENDER - 1` sender CREATE calls all succeed, returning
`SenderId` values 1, 2, …, `UINTC_MAX_SENDER - 1`, and the next CREATE call
fails with -1 due to pool exhaustion (the allocator range is the half-open
`[1, UINTC_MAX_SENDER)`). -/
theorem sender_create_exhaustion (cfg : Config)
    (hN1 : 1 ≤ cfg.UINTC_MAX_SENDER) (hN : cfg.UINTC_MAX_SENDER < 2 ^ 16) :
    (senderCreateRun cfg cfg.UINTC_MAX_SENDER (freshKState cfg)).1 =
      (List.range (cfg.UINTC_MAX_SENDER - 1)).map (fun j => CtlResult.ok (1 + j)) ++
        [CtlResult.err (-1)] := by
  have h32 : cfg.UINTC_MAX_SENDER < 2 ^ 32 := by
    have h2 : (2 : Nat) ^ 16 < 2 ^ 32 := by norm_num
    omega
  have hm1 : cfg.UINTC_MAX_SENDER % 2 ^ 32 = cfg.UINTC_MAX_SENDER := Nat.mod_eq_of_lt h32
  have hm2 : cfg.UINTC_MAX_SENDER % 2 ^ 16 = cfg.UINTC_MAX_SENDER := Nat.mod_eq_of_lt hN
  obtain ⟨m, hm⟩ : ∃ m, cfg.UINTC_MAX_SENDER = m + 1 := ⟨cfg.UINTC_MAX_SENDER - 1, by omega⟩
  have hfresh : freshKState cfg =
      ⟨⟨1, cfg.UINTC_MAX_SENDER, []⟩, ⟨1, cfg.UINTC_MAX_SENDER, []⟩,
        ⟨1, cfg.UINTC_MAX_RECEIVER % 2 ^ 32, []⟩, ⟨1, cfg.UINTC_MAX_RECEIVER % 2 ^ 16, []⟩,
        fun _ => 0, some utiEmpty, []⟩ := by
    have hA := h32
    have hB := hN
    norm_num at hA hB
    simp [freshKState, StackIntegerAllocator.new, hm1, hm2]
    exact ⟨hA, hB⟩
  rw [hfresh]
  rw [hm, Nat.add_sub_cancel]
  have hspec := senderCreateRun_spec cfg m 1
    ⟨1, cfg.UINTC_MAX_RECEIVER % 2 ^ 32, []⟩ ⟨1, cfg.UINTC_MAX_RECEIVER % 2 ^ 16, []⟩
    (fun _ => 0) [] utiEmpty (by simp [utiEmpty]) le_rfl (by omega)
  rw [hm] at hspec
  exact hspec

/-- Counterexample for C2 as stated: with `UINTC_MAX_SENDER = 2`, the claim
predicts two successful CREATE calls returning ids 1 and 2; in fact the
second call already fails (the pool is the half-open range `[1, 2)`). -/
theorem sender_create_second_fails :
    (senderCreateRun cfgB2 2 (freshKState cfgB2)).1 ≠
      [CtlResult.ok 1, CtlResult.ok 2] := by
  decide

/-- Witness for C2 (amended): with `UINTC_MAX_SENDER = 3`, the three CREATE
calls return ok 1, ok 2, then -1. -/
theorem sender_create_exhaustion_witness :
    (senderCreateRun cfgB3 3 (freshKState cfgB3)).1 =
      [CtlResult.ok 1, CtlResult.ok 2, CtlResult.err (-1)] := by
  have h := sender_create_exhaustion cfgB3 (by decide) (by decide)
  simpa using h


end RCoreN
